/-
Verification of the PJUM SLA/status engine (src/app.py) against its
specification.

Modelling conventions:
* A calendar date is a `Nat`: the number of days elapsed since a fixed
  Monday epoch, so `d % 7` is Python's `date.weekday()` (Monday = 0,
  …, Saturday = 5, Sunday = 6).
* A missing/NaT value is `Option.none`.
* Python strings are Lean `String`s; the specific Python string
  operations used by the source (`str.strip`, `str.lower`,
  `str.startswith`) are modelled explicitly below on `List Char`.
-/
import Mathlib

namespace Pjum

/-! ### BusinessCalendar (src/app.py, `add_business_days`, lines 42-57) -/

/-- A day is a business day iff it is not a Saturday/Sunday
(`current.weekday() >= 5`) and not in the holiday set
(`current in holidays_set`). -/
def isBusinessDay (holidays : Finset Nat) (d : Nat) : Bool :=
  !(decide (d % 7 ≥ 5)) && !(decide (d ∈ holidays))

/-- Strictly after any day there is a business day: the next multiple of 7
past both `d` and every holiday is a Monday outside the holiday set. -/
theorem exists_businessDay (holidays : Finset Nat) (d : Nat) :
    ∃ e, d < e ∧ isBusinessDay holidays e = true := by
  classical
  set M : Nat := max d (holidays.sup id) with hM
  refine ⟨7 * (M / 7 + 1), ?_, ?_⟩
  · have h1 : d ≤ M := le_max_left _ _
    have h2 : M < 7 * (M / 7 + 1) := by
      have := Nat.mod_lt M (show 0 < 7 by decide)
      have := Nat.div_add_mod M 7
      omega
    omega
  · unfold isBusinessDay
    have hmod : (7 * (M / 7 + 1)) % 7 = 0 := by
      simp [Nat.mul_mod_right]
    have hnotin : 7 * (M / 7 + 1) ∉ holidays := by
      intro hmem
      have hle : 7 * (M / 7 + 1) ≤ holidays.sup id :=
        Finset.le_sup (f := id) hmem
      have h2 : M < 7 * (M / 7 + 1) := by
        have := Nat.mod_lt M (show 0 < 7 by decide)
        have := Nat.div_add_mod M 7
        omega
      have h3 : holidays.sup id ≤ M := le_max_right _ _
      omega
    simp [hmod, hnotin]

/-- The loop body of `add_business_days`: starting from `current`, step one
calendar day at a time, skipping weekends and holidays, until a business
day is reached; i.e. the least business day strictly after `d`. -/
def nextBusinessDay (holidays : Finset Nat) (d : Nat) : Nat :=
  Nat.find (exists_businessDay holidays d)

theorem nextBusinessDay_lt (holidays : Finset Nat) (d : Nat) :
    d < nextBusinessDay holidays d :=
  (Nat.find_spec (exists_businessDay holidays d)).1

theorem nextBusinessDay_isBusinessDay (holidays : Finset Nat) (d : Nat) :
    isBusinessDay holidays (nextBusinessDay holidays d) = true :=
  (Nat.find_spec (exists_businessDay holidays d)).2

/-- `add_business_days(start_date, add_days, holidays_set)`: the while loop
runs `add_days` times; each run advances `current` to the next business day
strictly after it (weekends and holidays are skipped without counting).
With `add_days = 0` the loop body never runs and `start_date` is returned
as-is. -/
def addBusinessDays (holidays : Finset Nat) (start : Nat) : Nat → Nat
  | 0 => start
  | n + 1 => nextBusinessDay holidays (addBusinessDays holidays start n)

/-! ### Python string primitives used by the source -/

/-- Whitespace characters removed by Python's `str.strip()` (the ones that
can occur in the cell values at hand). -/
def pyIsSpace (c : Char) : Bool :=
  c = ' ' || c = '\t' || c = '\n' || c = '\r'

/-- Model of Python's `str.strip()`: drop leading and trailing whitespace. -/
def pyStrip (s : String) : String :=
  String.mk (((s.data.dropWhile pyIsSpace).reverse.dropWhile pyIsSpace).reverse)

/-- Model of Python's `str.lower()` on the ASCII strings at hand. -/
def pyLower (s : String) : String :=
  String.mk (s.data.map fun c =>
    if 'A' ≤ c ∧ c ≤ 'Z' then Char.ofNat (c.toNat + 32) else c)

def charsStartWith : List Char → List Char → Bool
  | _, [] => true
  | [], _ :: _ => false
  | c :: cs, p :: ps => c = p && charsStartWith cs ps

/-- Model of Python's `str.startswith(pat)`. -/
def pyStartsWith (s pat : String) : Bool :=
  charsStartWith s.data pat.data

/-! ### SlaCalculator (src/app.py, `compute_sla_and_status`, lines 89-118) -/

/-- Window length from the (stripped) category text, lines 100-108:
`header.startswith("S-")` → 20, `elif header.startswith("ST-")` → 10,
else → 10. -/
def slaDays (header : String) : Nat :=
  if pyStartsWith header "S-" then 20
  else if pyStartsWith header "ST-" then 10
  else 10

/-- Base-date selection, lines 96-99: use `End Date`; if missing, fall back
to `Posting Date`. -/
def baseDate (endDate postingDate : Option Nat) : Option Nat :=
  match endDate with
  | some e => some e
  | none => postingDate

/-- Lines 110-116: if no base date, the SLA due date (`10HK/20HK`) is NaT;
otherwise it is `add_business_days(base_date, days_to_add, holidays)`.
`headerRaw` is the raw `Header Text` cell, stripped as on line 93. -/
def slaDueDate (holidays : Finset Nat) (headerRaw : String)
    (endDate postingDate : Option Nat) : Option Nat :=
  match baseDate endDate postingDate with
  | none => none
  | some b => some (addBusinessDays holidays b (slaDays (pyStrip headerRaw)))

/-! ### StatusEngine, automatic phase (src/app.py, lines 126-154) -/

/-- The per-row `Status` computation, lines 128-153. -/
def computeStatus (postingPjum slaDate endDate : Option Nat)
    (refDate : Nat) : String :=
  match postingPjum with
  | some p =>
    match slaDate with
    | none => "Check SLA"
    | some s => if p > s then "Telat" else "Tidak Telat"
  | none =>
    if (match endDate with | some e => decide (e > refDate) | none => false) then
      "Kegiatan Belum Berakhir"
    else
      match slaDate with
      | none => "Check SLA"
      | some s => if refDate > s then "Lewat Jatuh Tempo" else "Belum Jatuh Tempo"

/-! ### StatusEngine, manual-override phase
(src/app.py, `compute_status_after_manual`, lines 173-205) -/

/-- `Status No SAP PJUM`, lines 177-186: both document numbers are passed
through `str(...).strip()`; an empty or `"nan"`-like (case-insensitive)
manual number yields the empty marker, an exact match yields
`"No Doc SAP Sama"`, anything else `"No Doc SAP Berbeda"`. -/
def statusNoSapPjum (manualNoRaw docPjumRaw : String) : String :=
  let manualNo := pyStrip manualNoRaw
  let docPjum := pyStrip docPjumRaw
  if manualNo = "" ∨ pyLower manualNo = "nan" then ""
  else if manualNo = docPjum then "No Doc SAP Sama"
  else "No Doc SAP Berbeda"

/-- `Status Final`, lines 189-203: if both `Tanggal Masuk GPBN` and the SLA
due date are present and the former is `<=` the latter, the final status is
`"Tidak Telat"`; otherwise the original `Status` (Python's
`orig_status if orig_status else ""`, the identity on strings). -/
def statusFinal (tglDiterima slaDate : Option Nat) (origStatus : String) : String :=
  match tglDiterima, slaDate with
  | some t, some s =>
    if t ≤ s then "Tidak Telat"
    else if origStatus = "" then "" else origStatus
  | _, _ => if origStatus = "" then "" else origStatus

/-- The columns of one row that `compute_status_after_manual` reads and
writes. -/
structure ManualRecord where
  status : String            -- `Status`
  manualNo : String          -- `Nomor SAP PJUM Pertama Kali`
  manualReceived : Option Nat -- `Tanggal Masuk GPBN`
  docPjum : String           -- `Doc SAP PJUM`
  slaDue : Option Nat        -- `10HK/20HK`
  noDocStatus : String       -- `Status No SAP PJUM`
  finalStatus : String       -- `Status Final`
deriving DecidableEq

/-- One row of the `compute_status_after_manual` pass: both derived columns
are overwritten from `Status`, the manual fields, `Doc SAP PJUM` and the
SLA due date; nothing else changes. -/
def computeStatusAfterManual (r : ManualRecord) : ManualRecord :=
  { r with
    noDocStatus := statusNoSapPjum r.manualNo r.docPjum
    finalStatus := statusFinal r.manualReceived r.slaDue r.status }

/-! ### Batch-level engine (src/app.py, `compute_sla_and_status`) -/

/-- The input columns of one raw report row that the engine reads. -/
structure InputRow where
  headerText : String        -- `Header Text`
  endDate : Option Nat       -- `End Date`
  postingDate : Option Nat   -- `Posting Date`
  postingPjum : Option Nat   -- `Posting Date PJUM`
deriving DecidableEq

/-- A processed row: the input row plus the derived `10HK/20HK` and
`Status` columns. -/
structure OutputRow where
  row : InputRow
  slaDue : Option Nat
  status : String
deriving DecidableEq

/-- Outcome of `compute_sla_and_status`: on a missing `Header Text` column
the function calls `st.error(...)` and returns the input dataframe
unchanged (lines 83-85), modelled as `rejected` carrying the diagnostic and
the untouched input rows; otherwise every row gets its derived columns. -/
inductive EngineResult where
  | rejected (diagnostic : String) (rows : List InputRow)
  | processed (rows : List OutputRow)
deriving DecidableEq

def processRow (holidays : Finset Nat) (refDate : Nat) (r : InputRow) : OutputRow :=
  let due := slaDueDate holidays r.headerText r.endDate r.postingDate
  { row := r, slaDue := due
    status := computeStatus r.postingPjum due r.endDate refDate }

/-- `compute_sla_and_status(df, holidays_df, ref_date)`: `hasHeaderText`
states whether the `Header Text` column is present in `df`. -/
def computeSlaAndStatus (holidays : Finset Nat) (refDate : Nat)
    (hasHeaderText : Bool) (rows : List InputRow) : EngineResult :=
  if hasHeaderText = false then
    .rejected "Header Text column not found in uploaded report." rows
  else
    .processed (rows.map (processRow holidays refDate))

/-! ### DateNormalizer (src/app.py, `parse_date`, lines 15-33)

`parse_date` tries, in order, the `strptime` formats
`"%d/%m/%Y", "%d/%m/%y", "%d-%m-%Y", "%d-%m-%y", "%Y-%m-%d", "%m/%d/%Y"`;
the first format that both matches the whole string and yields a valid
calendar date wins (an invalid date raises and the loop continues).

Every text these formats can produce or consume is three decimal fields
joined by a single separator character, so the rendered text is modelled
by its separator and the three fields, each with its digit width.
CPython's `_strptime` matches `%d` against 1-2 digits with value 1-31,
`%m` against 1-2 digits with value 1-12, `%y` against exactly 2 digits,
and `%Y` against exactly 4 digits; a directive that consumed only part of
a field would leave a digit where a separator (or the end of the string)
is required, so whole-field matching is faithful for these texts.  The
final `pd.to_datetime` fallback (line 31) is not modelled: `none` means
the six explicit formats all failed and the fallback would be consulted. -/

structure Date where
  year : Nat
  month : Nat
  day : Nat
deriving DecidableEq

def isLeap (y : Nat) : Bool :=
  (y % 4 = 0 && y % 100 ≠ 0) || y % 400 = 0

def daysInMonth (y m : Nat) : Nat :=
  if m = 2 then (if isLeap y then 29 else 28)
  else if m = 4 ∨ m = 6 ∨ m = 9 ∨ m = 11 then 30
  else 31

/-- A valid Gregorian date representable by the formats at hand. -/
def validDate (dt : Date) : Prop :=
  1 ≤ dt.year ∧ dt.year ≤ 9999 ∧ 1 ≤ dt.month ∧ dt.month ≤ 12 ∧
    1 ≤ dt.day ∧ dt.day ≤ daysInMonth dt.year dt.month

instance (dt : Date) : Decidable (validDate dt) :=
  inferInstanceAs (Decidable (1 ≤ dt.year ∧ dt.year ≤ 9999 ∧ 1 ≤ dt.month ∧
    dt.month ≤ 12 ∧ 1 ≤ dt.day ∧ dt.day ≤ daysInMonth dt.year dt.month))

/-- One run of decimal digits in the text: its digit width and its value
(`val < 10^width`). -/
structure NumField where
  width : Nat
  val : Nat
deriving DecidableEq

inductive Sep where
  | slash
  | dash
deriving DecidableEq

/-- A date text `f1 sep f2 sep f3`. -/
structure DateText where
  sep : Sep
  f1 : NumField
  f2 : NumField
  f3 : NumField
deriving DecidableEq

/-- `%d`: 1-2 digits, value 1-31 (`"00"` is not matched). -/
def matchDay (f : NumField) : Prop :=
  (f.width = 1 ∨ f.width = 2) ∧ 1 ≤ f.val ∧ f.val ≤ 31

instance (f : NumField) : Decidable (matchDay f) :=
  inferInstanceAs (Decidable ((f.width = 1 ∨ f.width = 2) ∧ 1 ≤ f.val ∧ f.val ≤ 31))

/-- `%m`: 1-2 digits, value 1-12. -/
def matchMonth (f : NumField) : Prop :=
  (f.width = 1 ∨ f.width = 2) ∧ 1 ≤ f.val ∧ f.val ≤ 12

instance (f : NumField) : Decidable (matchMonth f) :=
  inferInstanceAs (Decidable ((f.width = 1 ∨ f.width = 2) ∧ 1 ≤ f.val ∧ f.val ≤ 12))

/-- `%y`: exactly 2 digits. -/
def matchYear2 (f : NumField) : Prop := f.width = 2

instance (f : NumField) : Decidable (matchYear2 f) :=
  inferInstanceAs (Decidable (f.width = 2))

/-- `%Y`: exactly 4 digits. -/
def matchYear4 (f : NumField) : Prop := f.width = 4

instance (f : NumField) : Decidable (matchYear4 f) :=
  inferInstanceAs (Decidable (f.width = 4))

/-- POSIX two-digit-year pivot used by `%y`: 00-68 → 2000s, 69-99 → 1900s. -/
def y2full (v : Nat) : Nat :=
  if v ≤ 68 then 2000 + v else 1900 + v

/-- Validate the candidate the way `datetime(...)` construction does:
an out-of-range date raises, and the format loop moves on. -/
def mkValid (dt : Date) : Option Date :=
  if validDate dt then some dt else none

/-- `"%d/%m/%Y"` -/
def tryFmt1 (t : DateText) : Option Date :=
  if t.sep = Sep.slash ∧ matchDay t.f1 ∧ matchMonth t.f2 ∧ matchYear4 t.f3 then
    mkValid ⟨t.f3.val, t.f2.val, t.f1.val⟩
  else none

/-- `"%d/%m/%y"` -/
def tryFmt2 (t : DateText) : Option Date :=
  if t.sep = Sep.slash ∧ matchDay t.f1 ∧ matchMonth t.f2 ∧ matchYear2 t.f3 then
    mkValid ⟨y2full t.f3.val, t.f2.val, t.f1.val⟩
  else none

/-- `"%d-%m-%Y"` -/
def tryFmt3 (t : DateText) : Option Date :=
  if t.sep = Sep.dash ∧ matchDay t.f1 ∧ matchMonth t.f2 ∧ matchYear4 t.f3 then
    mkValid ⟨t.f3.val, t.f2.val, t.f1.val⟩
  else none

/-- `"%d-%m-%y"` -/
def tryFmt4 (t : DateText) : Option Date :=
  if t.sep = Sep.dash ∧ matchDay t.f1 ∧ matchMonth t.f2 ∧ matchYear2 t.f3 then
    mkValid ⟨y2full t.f3.val, t.f2.val, t.f1.val⟩
  else none

/-- `"%Y-%m-%d"` -/
def tryFmt5 (t : DateText) : Option Date :=
  if t.sep = Sep.dash ∧ matchYear4 t.f1 ∧ matchMonth t.f2 ∧ matchDay t.f3 then
    mkValid ⟨t.f1.val, t.f2.val, t.f3.val⟩
  else none

/-- `"%m/%d/%Y"` -/
def tryFmt6 (t : DateText) : Option Date :=
  if t.sep = Sep.slash ∧ matchMonth t.f1 ∧ matchDay t.f2 ∧ matchYear4 t.f3 then
    mkValid ⟨t.f3.val, t.f1.val, t.f2.val⟩
  else none

/-- The format loop of `parse_date`, lines 22-28: first success wins. -/
def parseDateText (t : DateText) : Option Date :=
  match tryFmt1 t with
  | some d => some d
  | none =>
  match tryFmt2 t with
  | some d => some d
  | none =>
  match tryFmt3 t with
  | some d => some d
  | none =>
  match tryFmt4 t with
  | some d => some d
  | none =>
  match tryFmt5 t with
  | some d => some d
  | none => tryFmt6 t

/-- Digit width of a year when rendered by `strftime`'s `%Y`, which does
not zero-pad (`datetime(1,4,5).strftime("%Y-%m-%d") = "1-04-05"`). -/
def year4Width (y : Nat) : Nat :=
  if y < 10 then 1 else if y < 100 then 2 else if y < 1000 then 3 else 4

/-- Render with `"%d/%m/%Y"` (`%d`/`%m` zero-pad to width 2). -/
def renderDMY4 (dt : Date) : DateText :=
  ⟨Sep.slash, ⟨2, dt.day⟩, ⟨2, dt.month⟩, ⟨year4Width dt.year, dt.year⟩⟩

/-- Render with `"%d/%m/%y"` (`%y` is the year mod 100, zero-padded to 2). -/
def renderDMY2 (dt : Date) : DateText :=
  ⟨Sep.slash, ⟨2, dt.day⟩, ⟨2, dt.month⟩, ⟨2, dt.year % 100⟩⟩

/-- Render with `"%d-%m-%Y"`. -/
def renderDMY4dash (dt : Date) : DateText :=
  ⟨Sep.dash, ⟨2, dt.day⟩, ⟨2, dt.month⟩, ⟨year4Width dt.year, dt.year⟩⟩

/-- Render with `"%d-%m-%y"`. -/
def renderDMY2dash (dt : Date) : DateText :=
  ⟨Sep.dash, ⟨2, dt.day⟩, ⟨2, dt.month⟩, ⟨2, dt.year % 100⟩⟩

/-- Render with `"%Y-%m-%d"`. -/
def renderYMD (dt : Date) : DateText :=
  ⟨Sep.dash, ⟨year4Width dt.year, dt.year⟩, ⟨2, dt.month⟩, ⟨2, dt.day⟩⟩

/-- Render with `"%m/%d/%Y"`. -/
def renderMDY (dt : Date) : DateText :=
  ⟨Sep.slash, ⟨2, dt.month⟩, ⟨2, dt.day⟩, ⟨year4Width dt.year, dt.year⟩⟩

/-! ### Helper lemmas -/

theorem daysInMonth_le (y m : Nat) : daysInMonth y m ≤ 31 := by
  unfold daysInMonth
  split_ifs <;> omega

theorem daysInMonth_ge (y m : Nat) : 28 ≤ daysInMonth y m := by
  unfold daysInMonth
  split_ifs <;> omega

theorem ifEmptyString (st : String) : (if st = "" then "" else st) = st := by
  by_cases h : st = "" <;> simp [h]

/-! ### Theorems for the claims -/

/-- Claim C1: the automatic phase computes `Status` as a pure function of
`PostingDatePJUM`, `SlaDueDate`, `EndDate` and the reference date, with
exactly the branch structure of lines 128-153 of `compute_sla_and_status`:
settlement date present gives `Check SLA` / `Telat` / `Tidak Telat`;
settlement date absent gives `Kegiatan Belum Berakhir` when the end date
is strictly in the future, otherwise `Check SLA` / `Lewat Jatuh Tempo` /
`Belum Jatuh Tempo`, with a reference date equal to the due date yielding
`Belum Jatuh Tempo`. -/
theorem c1_automatic_status :
    (∀ (p : Nat) (e : Option Nat) (r : Nat),
        computeStatus (some p) none e r = "Check SLA") ∧
    (∀ (p s : Nat) (e : Option Nat) (r : Nat), s < p →
        computeStatus (some p) (some s) e r = "Telat") ∧
    (∀ (p s : Nat) (e : Option Nat) (r : Nat), p ≤ s →
        computeStatus (some p) (some s) e r = "Tidak Telat") ∧
    (∀ (sla : Option Nat) (e r : Nat), r < e →
        computeStatus none sla (some e) r = "Kegiatan Belum Berakhir") ∧
    (∀ r : Nat, computeStatus none none none r = "Check SLA") ∧
    (∀ e r : Nat, e ≤ r → computeStatus none none (some e) r = "Check SLA") ∧
    (∀ s r : Nat, s < r →
        computeStatus none (some s) none r = "Lewat Jatuh Tempo") ∧
    (∀ e s r : Nat, e ≤ r → s < r →
        computeStatus none (some s) (some e) r = "Lewat Jatuh Tempo") ∧
    (∀ s r : Nat, r ≤ s →
        computeStatus none (some s) none r = "Belum Jatuh Tempo") ∧
    (∀ e s r : Nat, e ≤ r → r ≤ s →
        computeStatus none (some s) (some e) r = "Belum Jatuh Tempo") ∧
    (∀ s : Nat, computeStatus none (some s) none s = "Belum Jatuh Tempo") := by
  refine ⟨?_, ?_, ?_, ?_, ?_, ?_, ?_, ?_, ?_, ?_, ?_⟩
  · intro p e r; simp [computeStatus]
  · intro p s e r h; simp [computeStatus, h]
  · intro p s e r h; simp [computeStatus]; omega
  · intro sla e r h; simp [computeStatus, h]
  · intro r; simp [computeStatus]
  · intro e r h; simp [computeStatus, show ¬ (r < e) from by omega]
  · intro s r h; simp [computeStatus, h]
  · intro e s r he h
    simp [computeStatus, show ¬ (r < e) from by omega, h]
  · intro s r h; simp [computeStatus, show ¬ (s < r) from by omega]
  · intro e s r he h
    simp [computeStatus, show ¬ (r < e) from by omega,
      show ¬ (s < r) from by omega]
  · intro s; simp [computeStatus]

/-- Closed instance of claim C1 (`Telat` branch at a concrete input). -/
theorem c1_automatic_status_witness :
    3 < 5 ∧ computeStatus (some 5) (some 3) none 0 = "Telat" :=
  ⟨by decide, c1_automatic_status.2.1 5 3 none 0 (by decide)⟩

/-- Claim C2: the override phase forces `Status Final = "Tidak Telat"`
exactly when both `Tanggal Masuk GPBN` and the SLA due date are present
with the former `<=` the latter (whatever the automatic status, `"Telat"`
included); in every other case the automatic status is kept. -/
theorem c2_final_status_override :
    (∀ (t s : Nat) (st : String), t ≤ s →
        statusFinal (some t) (some s) st = "Tidak Telat") ∧
    (∀ (t s : Nat) (st : String), s < t →
        statusFinal (some t) (some s) st = st) ∧
    (∀ (sla : Option Nat) (st : String), statusFinal none sla st = st) ∧
    (∀ (t : Nat) (st : String), statusFinal (some t) none st = st) := by
  refine ⟨?_, ?_, ?_, ?_⟩
  · intro t s st h; simp [statusFinal, h]
  · intro t s st h
    simp [statusFinal, show ¬ (t ≤ s) from by omega, ifEmptyString]
  · intro sla st; cases sla <;> simp [statusFinal, ifEmptyString]
  · intro t st; simp [statusFinal, ifEmptyString]

/-- Closed instance of claim C2: a `Telat` row whose manual received date
meets the SLA is overridden to `Tidak Telat`. -/
theorem c2_final_status_override_witness :
    3 ≤ 5 ∧ statusFinal (some 3) (some 5) "Telat" = "Tidak Telat" :=
  ⟨by decide, c2_final_status_override.1 3 5 "Telat" (by decide)⟩

/-- Claim C4 is false as stated: with `add_days = 0` the while loop of
`add_business_days` never runs and the start date is returned unchanged,
so a Saturday start (day 5 of the Monday-epoch week) is returned even
though it is not a business day. -/
theorem c4_counterexample :
    ¬ ∀ (holidays : Finset Nat) (d n : Nat),
        addBusinessDays holidays d n % 7 < 5 ∧
          addBusinessDays holidays d n ∉ holidays := by
  intro hall
  exact absurd (hall ∅ 5 0).1 (by decide)

/-- Claim C4 amended: for every count `n ≥ 1` the result of
`add_business_days` is neither a Saturday nor a Sunday (`weekday < 5`)
nor a member of the holiday set; `n = 0` returns the start date as-is. -/
theorem c4_amended (holidays : Finset Nat) (d n : Nat) (h : 1 ≤ n) :
    addBusinessDays holidays d n % 7 < 5 ∧
      addBusinessDays holidays d n ∉ holidays := by
  obtain ⟨m, rfl⟩ : ∃ m, n = m + 1 := ⟨n - 1, by omega⟩
  have hb := nextBusinessDay_isBusinessDay holidays (addBusinessDays holidays d m)
  have : addBusinessDays holidays d (m + 1) =
      nextBusinessDay holidays (addBusinessDays holidays d m) := rfl
  rw [this]
  simp only [isBusinessDay, Bool.and_eq_true, Bool.not_eq_true',
    decide_eq_false_iff_not] at hb
  exact ⟨by omega, hb.2⟩

/-- Closed instance of the amended claim C4. -/
theorem c4_amended_witness :
    1 ≤ 1 ∧ (addBusinessDays ∅ 0 1 % 7 < 5 ∧ addBusinessDays ∅ 0 1 ∉ (∅ : Finset Nat)) :=
  ⟨by decide, c4_amended ∅ 0 1 (by decide)⟩

/-- Claim C6: `add_business_days` is strictly monotonic in its count
argument. -/
theorem c6_addBusinessDays_strictMono (holidays : Finset Nat) (d : Nat)
    (n1 n2 : Nat) (h : n1 < n2) :
    addBusinessDays holidays d n1 < addBusinessDays holidays d n2 := by
  induction n2 with
  | zero => omega
  | succ m ih =>
    have hstep : addBusinessDays holidays d m <
        addBusinessDays holidays d (m + 1) :=
      nextBusinessDay_lt holidays (addBusinessDays holidays d m)
    rcases Nat.lt_succ_iff_lt_or_eq.mp h with h' | rfl
    · exact lt_trans (ih h') hstep
    · exact hstep

/-- Closed instance of claim C6. -/
theorem c6_addBusinessDays_strictMono_witness :
    0 < 1 ∧ addBusinessDays ∅ 0 0 < addBusinessDays ∅ 0 1 :=
  ⟨by decide, c6_addBusinessDays_strictMono ∅ 0 0 1 (by decide)⟩

/-- Claim C8: the override phase is idempotent, and it never reads its own
previous `Status No SAP PJUM` / `Status Final` output: overwriting those
two columns with anything before the recompute does not change its
result. -/
theorem c8_override_idempotent (r : ManualRecord) :
    computeStatusAfterManual (computeStatusAfterManual r) =
      computeStatusAfterManual r ∧
    ∀ x y : String,
      computeStatusAfterManual { r with noDocStatus := x, finalStatus := y } =
        computeStatusAfterManual r := by
  exact ⟨rfl, fun x y => rfl⟩

/-- Claim C9: when the `Header Text` column is absent,
`compute_sla_and_status` emits the diagnostic and returns the batch
unchanged — no row receives a derived status or due date. -/
theorem c9_missing_category_rejects (holidays : Finset Nat) (refDate : Nat)
    (rows : List InputRow) :
    computeSlaAndStatus holidays refDate false rows =
      EngineResult.rejected "Header Text column not found in uploaded report." rows := by
  rfl

/-- Claim C10: a manual document number whose stripped text is `"nan"` in
any letter case is treated exactly like an empty entry. -/
theorem c10_nan_manual_number (manualRaw docRaw : String)
    (h : pyLower (pyStrip manualRaw) = "nan") :
    statusNoSapPjum manualRaw docRaw = "" := by
  unfold statusNoSapPjum
  rw [if_pos (Or.inr h)]

/-- Closed instance of claim C10: `" NaN "` is non-empty, differs from the
document number `"X"`, and still yields the empty marker rather than
`"No Doc SAP Berbeda"`. -/
theorem c10_nan_manual_number_witness :
    pyLower (pyStrip " NaN ") = "nan" ∧ pyStrip " NaN " ≠ "" ∧
      pyStrip " NaN " ≠ pyStrip "X" ∧ statusNoSapPjum " NaN " "X" = "" :=
  ⟨by decide, by decide, by decide, c10_nan_manual_number " NaN " "X" (by decide)⟩

/-- A text that starts with `"ST-"` does not start with `"S-"` (its second
character is `'T'`, not `'-'`), so the `elif` branch of the window rule is
reachable. -/
theorem charsStartWith_ST_not_S (l : List Char)
    (h : charsStartWith l ['S', 'T', '-'] = true) :
    charsStartWith l ['S', '-'] = false := by
  match l with
  | [] => simp [charsStartWith] at h
  | [c] => simp [charsStartWith] at h
  | c :: c2 :: rest =>
    simp only [charsStartWith, Bool.and_eq_true, decide_eq_true_eq] at h
    obtain ⟨rfl, rfl, -⟩ := h
    simp [charsStartWith]

/-- Claim C3: the SLA window is 20 business days for an `"S-"` category
prefix, 10 for an `"ST-"` prefix, 10 otherwise; the base date is
`End Date` with `Posting Date` as fallback; the due date `10HK/20HK` is
present iff a base date exists, and then equals
`add_business_days(base, window)`. -/
theorem c3_sla_window :
    (∀ h : String, pyStartsWith h "S-" = true → slaDays h = 20) ∧
    (∀ h : String, pyStartsWith h "ST-" = true → slaDays h = 10) ∧
    (∀ h : String, pyStartsWith h "S-" = false → pyStartsWith h "ST-" = false →
        slaDays h = 10) ∧
    (∀ (e p : Option Nat) (x : Nat), e = some x → baseDate e p = some x) ∧
    (∀ p : Option Nat, baseDate none p = p) ∧
    (∀ (hol : Finset Nat) (hdr : String) (e p : Option Nat),
        ((slaDueDate hol hdr e p).isSome = true ↔
          (e.isSome = true ∨ p.isSome = true)) ∧
        ∀ b : Nat, baseDate e p = some b →
          slaDueDate hol hdr e p =
            some (addBusinessDays hol b (slaDays (pyStrip hdr)))) := by
  refine ⟨?_, ?_, ?_, ?_, ?_, ?_⟩
  · intro h hs; simp [slaDays, hs]
  · intro h hst
    have hs : pyStartsWith h "S-" = false :=
      charsStartWith_ST_not_S h.data hst
    simp [slaDays, hs, hst]
  · intro h hs hst; simp [slaDays, hs, hst]
  · intro e p x he; subst he; rfl
  · intro p; cases p <;> rfl
  · intro hol hdr e p
    constructor
    · cases e <;> cases p <;> simp [slaDueDate, baseDate]
    · intro b hb
      cases e with
      | some x => cases hb; rfl
      | none =>
        cases p with
        | none => cases hb
        | some x => cases hb; rfl

/-- Closed instance of claim C3 (20-day window for an `"S-"` category). -/
theorem c3_sla_window_witness :
    pyStartsWith "S-TRAVEL" "S-" = true ∧ slaDays "S-TRAVEL" = 20 :=
  ⟨by decide, c3_sla_window.1 "S-TRAVEL" (by decide)⟩

/-- Claim C7 is false as stated: the stripped manual number `"nan"` is
non-empty and differs from the document number `"X"`, yet the code maps it
to the empty marker, not to `"No Doc SAP Berbeda"`. -/
theorem c7_counterexample :
    pyStrip "nan" ≠ "" ∧ pyStrip "nan" ≠ pyStrip "X" ∧
      statusNoSapPjum "nan" "X" ≠ "No Doc SAP Berbeda" ∧
      statusNoSapPjum "nan" "X" = "" := by
  refine ⟨by decide, by decide, ?_, by decide⟩
  decide

/-- Claim C7 amended: after stripping, a manual number that is empty or
case-insensitively `"nan"` yields the empty marker; otherwise an exact
match with the stripped document number yields `"No Doc SAP Sama"` and any
other value yields `"No Doc SAP Berbeda"`. -/
theorem c7_amended (manualRaw docRaw : String) :
    (pyStrip manualRaw = "" ∨ pyLower (pyStrip manualRaw) = "nan" →
        statusNoSapPjum manualRaw docRaw = "") ∧
    (pyStrip manualRaw ≠ "" → pyLower (pyStrip manualRaw) ≠ "nan" →
        pyStrip manualRaw = pyStrip docRaw →
        statusNoSapPjum manualRaw docRaw = "No Doc SAP Sama") ∧
    (pyStrip manualRaw ≠ "" → pyLower (pyStrip manualRaw) ≠ "nan" →
        pyStrip manualRaw ≠ pyStrip docRaw →
        statusNoSapPjum manualRaw docRaw = "No Doc SAP Berbeda") := by
  refine ⟨?_, ?_, ?_⟩
  · intro h; unfold statusNoSapPjum; rw [if_pos h]
  · intro h1 h2 h3
    unfold statusNoSapPjum
    rw [if_neg (by push_neg; exact ⟨h1, h2⟩), if_pos h3]
  · intro h1 h2 h3
    unfold statusNoSapPjum
    rw [if_neg (by push_neg; exact ⟨h1, h2⟩), if_neg h3]

/-- Closed instance of the amended claim C7 (mismatch branch). -/
theorem c7_amended_witness :
    pyStrip "A1" ≠ "" ∧ pyLower (pyStrip "A1") ≠ "nan" ∧
      pyStrip "A1" ≠ pyStrip "B2" ∧
      statusNoSapPjum "A1" "B2" = "No Doc SAP Berbeda" :=
  ⟨by decide, by decide, by decide,
    (c7_amended "A1" "B2").2.2 (by decide) (by decide) (by decide)⟩

/-! ### Round-trip lemmas for the six `parse_date` formats -/

theorem year4Width_eq_four (y : Nat) (h : 1000 ≤ y) : year4Width y = 4 := by
  unfold year4Width
  split_ifs <;> omega

theorem y2full_mod_eq_self_iff (y : Nat) :
    y2full (y % 100) = y ↔ 1969 ≤ y ∧ y ≤ 2068 := by
  unfold y2full
  split <;> omega

theorem isLeap_y2full (y : Nat) (h : isLeap y = true) :
    isLeap (y2full (y % 100)) = true := by
  simp only [isLeap, Bool.or_eq_true, Bool.and_eq_true, decide_eq_true_eq,
    ne_eq, Bool.not_eq_true', decide_eq_false_iff_not] at h ⊢
  unfold y2full
  split <;> omega

theorem validDate_y2full (dt : Date) (hv : validDate dt) :
    validDate ⟨y2full (dt.year % 100), dt.month, dt.day⟩ := by
  obtain ⟨h1, h2, h3, h4, h5, h6⟩ := hv
  have hy : 1969 ≤ y2full (dt.year % 100) ∧ y2full (dt.year % 100) ≤ 2068 := by
    unfold y2full; split <;> omega
  have hd : dt.day ≤ daysInMonth (y2full (dt.year % 100)) dt.month := by
    by_cases hm : dt.month = 2
    · by_cases hl : isLeap dt.year = true
      · have hl2 := isLeap_y2full dt.year hl
        unfold daysInMonth at h6 ⊢
        rw [if_pos hm] at h6 ⊢
        rw [if_pos hl] at h6
        rw [if_pos hl2]
        exact h6
      · have h28 : dt.day ≤ 28 := by
          unfold daysInMonth at h6
          rw [if_pos hm, if_neg hl] at h6
          exact h6
        exact le_trans h28 (daysInMonth_ge _ _)
    · unfold daysInMonth at h6 ⊢
      rw [if_neg hm] at h6 ⊢
      exact h6
  refine ⟨?_, ?_, h3, h4, h5, hd⟩
  · show 1 ≤ y2full (dt.year % 100)
    omega
  · show y2full (dt.year % 100) ≤ 9999
    omega

theorem parse_renderDMY4 (dt : Date) (hv : validDate dt)
    (hy : 1000 ≤ dt.year) : parseDateText (renderDMY4 dt) = some dt := by
  obtain ⟨h1, h2, h3, h4, h5, h6⟩ := hv
  have hd31 : dt.day ≤ 31 := le_trans h6 (daysInMonth_le dt.year dt.month)
  have hw : year4Width dt.year = 4 := year4Width_eq_four dt.year hy
  have hf1 : tryFmt1 (renderDMY4 dt) = some dt := by
    unfold tryFmt1 renderDMY4
    rw [if_pos ⟨rfl, ⟨Or.inr rfl, h5, hd31⟩, ⟨Or.inr rfl, h3, h4⟩, hw⟩]
    unfold mkValid
    rw [if_pos ⟨h1, h2, h3, h4, h5, h6⟩]
  simp [parseDateText, hf1]

theorem parse_renderDMY4dash (dt : Date) (hv : validDate dt)
    (hy : 1000 ≤ dt.year) : parseDateText (renderDMY4dash dt) = some dt := by
  obtain ⟨h1, h2, h3, h4, h5, h6⟩ := hv
  have hd31 : dt.day ≤ 31 := le_trans h6 (daysInMonth_le dt.year dt.month)
  have hw : year4Width dt.year = 4 := year4Width_eq_four dt.year hy
  have hf1 : tryFmt1 (renderDMY4dash dt) = none := by
    simp [tryFmt1, renderDMY4dash]
  have hf2 : tryFmt2 (renderDMY4dash dt) = none := by
    simp [tryFmt2, renderDMY4dash]
  have hf3 : tryFmt3 (renderDMY4dash dt) = some dt := by
    unfold tryFmt3 renderDMY4dash
    rw [if_pos ⟨rfl, ⟨Or.inr rfl, h5, hd31⟩, ⟨Or.inr rfl, h3, h4⟩, hw⟩]
    unfold mkValid
    rw [if_pos ⟨h1, h2, h3, h4, h5, h6⟩]
  simp [parseDateText, hf1, hf2, hf3]

theorem parse_renderYMD (dt : Date) (hv : validDate dt)
    (hy : 1000 ≤ dt.year) : parseDateText (renderYMD dt) = some dt := by
  obtain ⟨h1, h2, h3, h4, h5, h6⟩ := hv
  have hd31 : dt.day ≤ 31 := le_trans h6 (daysInMonth_le dt.year dt.month)
  have hw : year4Width dt.year = 4 := year4Width_eq_four dt.year hy
  have hf1 : tryFmt1 (renderYMD dt) = none := by
    simp [tryFmt1, renderYMD]
  have hf2 : tryFmt2 (renderYMD dt) = none := by
    simp [tryFmt2, renderYMD]
  have hf3 : tryFmt3 (renderYMD dt) = none := by
    simp [tryFmt3, renderYMD, matchDay, hw]
  have hf4 : tryFmt4 (renderYMD dt) = none := by
    simp [tryFmt4, renderYMD, matchDay, hw]
  have hf5 : tryFmt5 (renderYMD dt) = some dt := by
    unfold tryFmt5 renderYMD
    rw [if_pos ⟨rfl, hw, ⟨Or.inr rfl, h3, h4⟩, ⟨Or.inr rfl, h5, hd31⟩⟩]
    unfold mkValid
    rw [if_pos ⟨h1, h2, h3, h4, h5, h6⟩]
  simp [parseDateText, hf1, hf2, hf3, hf4, hf5]

theorem parse_renderDMY2 (dt : Date) (hv : validDate dt) :
    parseDateText (renderDMY2 dt) =
      some ⟨y2full (dt.year % 100), dt.month, dt.day⟩ := by
  have hv2 := validDate_y2full dt hv
  obtain ⟨h1, h2, h3, h4, h5, h6⟩ := hv
  have hd31 : dt.day ≤ 31 := le_trans h6 (daysInMonth_le dt.year dt.month)
  have hf1 : tryFmt1 (renderDMY2 dt) = none := by
    simp [tryFmt1, renderDMY2, matchYear4]
  have hf2 : tryFmt2 (renderDMY2 dt) =
      some ⟨y2full (dt.year % 100), dt.month, dt.day⟩ := by
    unfold tryFmt2 renderDMY2
    rw [if_pos ⟨rfl, ⟨Or.inr rfl, h5, hd31⟩, ⟨Or.inr rfl, h3, h4⟩, rfl⟩]
    unfold mkValid
    rw [if_pos hv2]
  simp [parseDateText, hf1, hf2]

theorem parse_renderDMY2dash (dt : Date) (hv : validDate dt) :
    parseDateText (renderDMY2dash dt) =
      some ⟨y2full (dt.year % 100), dt.month, dt.day⟩ := by
  have hv2 := validDate_y2full dt hv
  obtain ⟨h1, h2, h3, h4, h5, h6⟩ := hv
  have hd31 : dt.day ≤ 31 := le_trans h6 (daysInMonth_le dt.year dt.month)
  have hf1 : tryFmt1 (renderDMY2dash dt) = none := by
    simp [tryFmt1, renderDMY2dash]
  have hf2 : tryFmt2 (renderDMY2dash dt) = none := by
    simp [tryFmt2, renderDMY2dash]
  have hf3 : tryFmt3 (renderDMY2dash dt) = none := by
    simp [tryFmt3, renderDMY2dash, matchYear4]
  have hf4 : tryFmt4 (renderDMY2dash dt) =
      some ⟨y2full (dt.year % 100), dt.month, dt.day⟩ := by
    unfold tryFmt4 renderDMY2dash
    rw [if_pos ⟨rfl, ⟨Or.inr rfl, h5, hd31⟩, ⟨Or.inr rfl, h3, h4⟩, rfl⟩]
    unfold mkValid
    rw [if_pos hv2]
  simp [parseDateText, hf1, hf2, hf3, hf4]

theorem parse_renderMDY_small_day (dt : Date) (hv : validDate dt)
    (hy : 1000 ≤ dt.year) (hd : dt.day ≤ 12) :
    parseDateText (renderMDY dt) = some ⟨dt.year, dt.day, dt.month⟩ := by
  obtain ⟨h1, h2, h3, h4, h5, h6⟩ := hv
  have hw : year4Width dt.year = 4 := year4Width_eq_four dt.year hy
  have hvs : validDate ⟨dt.year, dt.day, dt.month⟩ :=
    ⟨h1, h2, h5, hd, h3,
      le_trans (le_trans h4 (show (12 : Nat) ≤ 28 by omega)) (daysInMonth_ge _ _)⟩
  have hm31 : dt.month ≤ 31 := by omega
  have hf1 : tryFmt1 (renderMDY dt) =
      some ⟨dt.year, dt.day, dt.month⟩ := by
    unfold tryFmt1 renderMDY
    rw [if_pos ⟨rfl, ⟨Or.inr rfl, h3, hm31⟩, ⟨Or.inr rfl, h5, hd⟩, hw⟩]
    unfold mkValid
    rw [if_pos hvs]
  simp [parseDateText, hf1]

theorem parse_renderMDY_large_day (dt : Date) (hv : validDate dt)
    (hy : 1000 ≤ dt.year) (hd : 12 < dt.day) :
    parseDateText (renderMDY dt) = some dt := by
  obtain ⟨h1, h2, h3, h4, h5, h6⟩ := hv
  have hd31 : dt.day ≤ 31 := le_trans h6 (daysInMonth_le dt.year dt.month)
  have hw : year4Width dt.year = 4 := year4Width_eq_four dt.year hy
  have hf1 : tryFmt1 (renderMDY dt) = none := by
    unfold tryFmt1 renderMDY
    rw [if_neg]
    rintro ⟨-, -, ⟨-, -, hle⟩, -⟩
    have hle2 : dt.day ≤ 12 := hle
    omega
  have hf2 : tryFmt2 (renderMDY dt) = none := by
    simp [tryFmt2, renderMDY, matchYear2, hw]
  have hf3 : tryFmt3 (renderMDY dt) = none := by
    simp [tryFmt3, renderMDY]
  have hf4 : tryFmt4 (renderMDY dt) = none := by
    simp [tryFmt4, renderMDY]
  have hf5 : tryFmt5 (renderMDY dt) = none := by
    simp [tryFmt5, renderMDY]
  have hf6 : tryFmt6 (renderMDY dt) = some dt := by
    unfold tryFmt6 renderMDY
    rw [if_pos ⟨rfl, ⟨Or.inr rfl, h3, h4⟩, ⟨Or.inr rfl, h5, hd31⟩, hw⟩]
    unfold mkValid
    rw [if_pos ⟨h1, h2, h3, h4, h5, h6⟩]
  simp [parseDateText, hf1, hf2, hf3, hf4, hf5, hf6]

/-- Claim C5 is false as stated: the valid date 2025-04-05 rendered in the
`M/D/Y` format (`"04/05/2025"`) is re-parsed by the earlier day-first
format `"%d/%m/%Y"` as 2025-05-04, so that round trip does not return the
original date. -/
theorem c5_counterexample :
    validDate ⟨2025, 4, 5⟩ ∧
      parseDateText (renderMDY ⟨2025, 4, 5⟩) = some ⟨2025, 5, 4⟩ ∧
      parseDateText (renderMDY ⟨2025, 4, 5⟩) ≠ some ⟨2025, 4, 5⟩ := by
  refine ⟨by decide, by decide, ?_⟩
  decide

/-- Claim C5 amended: the round trip `normalize(render(d)) = d` holds for
the `D/M/Y`, `D-M-Y` (4-digit year) and `Y-M-D` formats whenever the year
renders as four digits (`1000 ≤ year`); for the two 2-digit-year formats
it holds exactly when `1969 ≤ year ≤ 2068` (the `%y` pivot); and for the
`M/D/Y` format exactly when `day > 12` or `day = month` (otherwise the
earlier day-first format wins and swaps day and month). -/
theorem c5_amended (dt : Date) (hv : validDate dt) :
    (1000 ≤ dt.year →
      parseDateText (renderDMY4 dt) = some dt ∧
      parseDateText (renderDMY4dash dt) = some dt ∧
      parseDateText (renderYMD dt) = some dt) ∧
    (parseDateText (renderDMY2 dt) = some dt ↔
      1969 ≤ dt.year ∧ dt.year ≤ 2068) ∧
    (parseDateText (renderDMY2dash dt) = some dt ↔
      1969 ≤ dt.year ∧ dt.year ≤ 2068) ∧
    (1000 ≤ dt.year →
      (parseDateText (renderMDY dt) = some dt ↔
        12 < dt.day ∨ dt.day = dt.month)) := by
  refine ⟨?_, ?_, ?_, ?_⟩
  · intro hy
    exact ⟨parse_renderDMY4 dt hv hy, parse_renderDMY4dash dt hv hy,
      parse_renderYMD dt hv hy⟩
  · rw [parse_renderDMY2 dt hv]
    obtain ⟨y, m, d⟩ := dt
    simp only [Option.some.injEq, Date.mk.injEq, and_true]
    exact y2full_mod_eq_self_iff y
  · rw [parse_renderDMY2dash dt hv]
    obtain ⟨y, m, d⟩ := dt
    simp only [Option.some.injEq, Date.mk.injEq, and_true]
    exact y2full_mod_eq_self_iff y
  · intro hy
    by_cases hd : 12 < dt.day
    · rw [parse_renderMDY_large_day dt hv hy hd]
      simp [hd]
    · rw [parse_renderMDY_small_day dt hv hy (by omega)]
      obtain ⟨y, m, d⟩ := dt
      simp only [Option.some.injEq, Date.mk.injEq, true_and]
      constructor
      · rintro ⟨h, -⟩
        exact Or.inr h
      · rintro (h | h)
        · exact absurd h hd
        · exact ⟨h, h.symm⟩

/-- Closed instance of the amended claim C5 at the valid date
2025-04-15. -/
theorem c5_amended_witness :
    validDate ⟨2025, 4, 15⟩ ∧
      ((1000 ≤ (2025 : Nat) →
        parseDateText (renderDMY4 ⟨2025, 4, 15⟩) = some ⟨2025, 4, 15⟩ ∧
        parseDateText (renderDMY4dash ⟨2025, 4, 15⟩) = some ⟨2025, 4, 15⟩ ∧
        parseDateText (renderYMD ⟨2025, 4, 15⟩) = some ⟨2025, 4, 15⟩) ∧
      (parseDateText (renderDMY2 ⟨2025, 4, 15⟩) = some ⟨2025, 4, 15⟩ ↔
        1969 ≤ (2025 : Nat) ∧ (2025 : Nat) ≤ 2068) ∧
      (parseDateText (renderDMY2dash ⟨2025, 4, 15⟩) = some ⟨2025, 4, 15⟩ ↔
        1969 ≤ (2025 : Nat) ∧ (2025 : Nat) ≤ 2068) ∧
      (1000 ≤ (2025 : Nat) →
        (parseDateText (renderMDY ⟨2025, 4, 15⟩) = some ⟨2025, 4, 15⟩ ↔
          12 < (15 : Nat) ∨ (15 : Nat) = 4))) :=
  ⟨by decide, c5_amended ⟨2025, 4, 15⟩ (by decide)⟩

end Pjum
